import Mathlib

/-!
Verification of the jma-data-mcp station search and observation decoding core.

The Python sources are embedded shallowly:
  * JSON numbers are modelled as rationals (`ℚ`); JSON null as `Option.none`.
  * A raw observation channel value (a JSON value that is either null or a
    list of numbers-or-null) is modelled as `Option (List (Option ℚ))`.
  * Python functions that can raise are modelled in `Except Unit`.
  * Python dictionaries with a fixed known key set are modelled as structures
    whose fields are `Option`-valued (`none` = key absent).
  * The float trigonometry of the haversine computation is abstracted by a
    bundle of function parameters (`TrigOps`), so theorems quantify over
    every possible realisation of `sin`, `cos`, `asin`, `sqrt`, `radians`.
-/

namespace JmaData

/-! ## Observation value parsing (weather.py, `parse_observation_value`)

Python source:
```
def parse_observation_value(value: list) -> Optional[float]:
    if value is None or len(value) < 2:
        return None
    val, quality = value
    if val is None or quality is None:
        return None
    return val
```
The tuple unpacking `val, quality = value` raises `ValueError` when the list
has more than two elements (the `len(value) < 2` guard only rules out shorter
lists), which the embedding records as `Except.error ()`.
-/

def parse_observation_value : Option (List (Option ℚ)) → Except Unit (Option ℚ)
  | none => .ok none
  | some value =>
    if value.length < 2 then .ok none
    else
      match value with
      | [val, quality] =>
        if val.isNone || quality.isNone then .ok none else .ok val
      | _ => .error ()

/-- Claim C3: for every raw channel 2-tuple `[value, qualityFlag]`, the decoded
value is null if either the raw value or the quality flag is null, and
otherwise equals the raw numeric value verbatim; the quality flag itself never
appears in the decoded output (the result is invariant under changing a
non-null quality flag). -/
theorem parse_observation_value_two_tuple (val quality : Option ℚ) :
    parse_observation_value (some [val, quality]) =
      .ok (if val = none ∨ quality = none then none else val) ∧
    (∀ x : ℚ, val = some x → quality ≠ none →
      parse_observation_value (some [val, quality]) = .ok (some x)) ∧
    (∀ quality' : Option ℚ, quality ≠ none → quality' ≠ none →
      parse_observation_value (some [val, quality]) =
        parse_observation_value (some [val, quality'])) := by
  refine ⟨?_, ?_, ?_⟩
  · cases val <;> cases quality <;> simp [parse_observation_value]
  · rintro x rfl hq
    cases quality with
    | none => exact absurd rfl hq
    | some q => simp [parse_observation_value]
  · intro quality' hq hq'
    cases quality with
    | none => exact absurd rfl hq
    | some q =>
      cases quality' with
      | none => exact absurd rfl hq'
      | some q' => cases val <;> simp [parse_observation_value]

theorem parse_observation_value_two_tuple_witness :
    parse_observation_value (some [some (21/2), some 0]) = .ok (some (21/2)) ∧
    parse_observation_value (some [some (21/2), none]) = .ok none := by
  refine ⟨?_, ?_⟩
  · exact (parse_observation_value_two_tuple (some (21/2)) (some 0)).2.1
      (21/2) rfl (by simp)
  · simpa using (parse_observation_value_two_tuple (some (21/2)) none).1

/-- Claim C9 (counterexample): `parse_observation_value` is not total on lists
of every length — a 3-element list reaches the 2-element tuple unpacking and
raises, modelled as `Except.error`. -/
theorem parse_observation_value_three_raises :
    parse_observation_value (some [some 1, some 2, some 3]) = .error () := rfl

/-- Claim C9 (amended): `parse_observation_value` returns null, rather than
raising, on a null input and on every list with fewer than 2 elements (the
truncated wire tuples), and succeeds on every 2-element list; only lists
longer than 2 raise. -/
theorem parse_observation_value_short_total :
    parse_observation_value none = .ok none ∧
    (∀ value : List (Option ℚ), value.length < 2 →
      parse_observation_value (some value) = .ok none) ∧
    (∀ val quality : Option ℚ,
      ∃ r, parse_observation_value (some [val, quality]) = .ok r) := by
  refine ⟨rfl, ?_, ?_⟩
  · intro value h
    simp [parse_observation_value, h]
  · intro val quality
    cases val <;> cases quality <;> exact ⟨_, rfl⟩

theorem parse_observation_value_short_total_witness :
    parse_observation_value (some [some 7]) = .ok none ∧
    ∃ r, parse_observation_value (some [some 7, some 0]) = .ok r := by
  refine ⟨?_, ?_⟩
  · exact parse_observation_value_short_total.2.1 [some 7] (by simp)
  · exact parse_observation_value_short_total.2.2 (some 7) (some 0)

/-! ## Station directory (stations.py)

A station record keeps the fields the search operations inspect: the three
display names (as character lists, so that Python's substring test `a in b`
becomes contiguous-sublist containment) and the coordinates. -/

structure StationName where
  ja : List Char
  kana : List Char
  en : List Char
deriving DecidableEq

structure Station where
  code : String
  name : StationName
  lat : ℚ
  lon : ℚ
deriving DecidableEq

/-- Python `str.lower()` restricted to the per-character case mapping. -/
def lowerChars (s : List Char) : List Char := s.map Char.toLower

/-- stations.py `search_stations_by_name`: the loop over `stations.values()`
appending every station whose `ja` or `kana` name contains `name`, or whose
`en` name contains it case-insensitively. -/
def search_stations_by_name (name : List Char) (stations : List Station) :
    List Station :=
  let name_lower := lowerChars name
  stations.filter (fun station =>
    decide (name <:+: station.name.ja) ||
    decide (name <:+: station.name.kana) ||
    decide (name_lower <:+: lowerChars station.name.en))

/-- Claim C6: `search_stations_by_name` returns exactly the stations matched
by a case-sensitive substring test on the `ja` and `kana` names or a
case-insensitive substring test on the `en` name, in directory iteration
order without re-sorting (the result is a sublist of the directory), and the
empty query returns the entire directory. -/
theorem search_stations_by_name_spec (name : List Char) (stations : List Station) :
    (∀ station, station ∈ search_stations_by_name name stations ↔
      station ∈ stations ∧
        (name <:+: station.name.ja ∨ name <:+: station.name.kana ∨
          lowerChars name <:+: lowerChars station.name.en)) ∧
    List.Sublist (search_stations_by_name name stations) stations ∧
    search_stations_by_name [] stations = stations := by
  refine ⟨?_, ?_, ?_⟩
  · intro station
    simp [search_stations_by_name, List.mem_filter, or_assoc]
  · exact List.filter_sublist stations
  · simp [search_stations_by_name, List.filter_eq_self]

/-! ## Radius search (stations.py, `search_stations_by_location`)

The float trigonometry (`math.sin`, `math.cos`, `math.asin`, `math.sqrt`,
`math.radians`) is abstracted as a bundle of rational-valued function
parameters, so every theorem below holds for each realisation of them; the
rest of the routine (the haversine expression shape, Earth radius 6371, the
radius filter, `round(distance, 2)`, and the stable sort on `distance_km`)
is embedded literally. -/

structure TrigOps where
  sin : ℚ → ℚ
  cos : ℚ → ℚ
  asin : ℚ → ℚ
  sqrt : ℚ → ℚ
  radians : ℚ → ℚ

/-- Python `round(x)`: round half to even (banker's rounding). -/
def roundHalfEven (x : ℚ) : ℤ :=
  if x - ⌊x⌋ < 1/2 then ⌊x⌋
  else if 1/2 < x - ⌊x⌋ then ⌊x⌋ + 1
  else if ⌊x⌋ % 2 = 0 then ⌊x⌋ else ⌊x⌋ + 1

/-- Python `round(x, 2)`: round to 2 decimal places, half to even. -/
def round2 (x : ℚ) : ℚ := (roundHalfEven (100 * x) : ℚ) / 100

/-- The haversine great-circle distance of stations.py lines 58-70:
`a = sin(dlat/2)^2 + cos(lat1)*cos(lat2)*sin(dlon/2)^2`,
`c = 2*asin(sqrt(a))`, `distance = 6371 * c`. -/
def haversineDistance (ops : TrigOps) (lat lon station_lat station_lon : ℚ) : ℚ :=
  let lat1 := ops.radians lat
  let lon1 := ops.radians lon
  let lat2 := ops.radians station_lat
  let lon2 := ops.radians station_lon
  let dlat := lat2 - lat1
  let dlon := lon2 - lon1
  let a := ops.sin (dlat/2) ^ 2 + ops.cos lat1 * ops.cos lat2 * ops.sin (dlon/2) ^ 2
  let c := 2 * ops.asin (ops.sqrt a)
  6371 * c

/-- A station annotated with its `distance_km` field, as appended to the
result list by `search_stations_by_location`. -/
structure RankedStation where
  station : Station
  distance_km : ℚ
deriving DecidableEq

/-- stations.py `search_stations_by_location`: keep every station whose
haversine distance is at most `radius_km`, annotate it with the distance
rounded to 2 decimals, and sort the results by that `distance_km` key
(Python `list.sort` is stable; `List.mergeSort` is its stable embedding). -/
def search_stations_by_location (ops : TrigOps) (stations : List Station)
    (lat lon radius_km : ℚ) : List RankedStation :=
  let results := stations.filterMap (fun station =>
    let distance := haversineDistance ops lat lon station.lat station.lon
    if distance ≤ radius_km then some ⟨station, round2 distance⟩ else none)
  results.mergeSort (fun a b => decide (a.distance_km ≤ b.distance_km))

theorem roundHalfEven_le (x : ℚ) : (roundHalfEven x : ℚ) ≤ x + 1/2 := by
  unfold roundHalfEven
  have hfl : (⌊x⌋ : ℚ) ≤ x := Int.floor_le x
  split
  · linarith
  · split
    · push_cast
      linarith
    · split <;> push_cast <;> linarith

theorem round2_le (x : ℚ) : round2 x ≤ x + 1/200 := by
  have h := roundHalfEven_le (100 * x)
  unfold round2
  linarith

/-- The annotated keep-list before sorting: `search_stations_by_location`
is exactly the stable sort of this list by `distance_km`. -/
def keptStations (ops : TrigOps) (stations : List Station)
    (lat lon radius_km : ℚ) : List RankedStation :=
  (stations.filter (fun station =>
      decide (haversineDistance ops lat lon station.lat station.lon ≤ radius_km))).map
    (fun station =>
      ⟨station, round2 (haversineDistance ops lat lon station.lat station.lon)⟩)

theorem search_by_location_eq_mergeSort (ops : TrigOps) (stations : List Station)
    (lat lon radius_km : ℚ) :
    search_stations_by_location ops stations lat lon radius_km =
      (keptStations ops stations lat lon radius_km).mergeSort
        (fun a b => decide (a.distance_km ≤ b.distance_km)) := by
  have h : stations.filterMap (fun station =>
      if haversineDistance ops lat lon station.lat station.lon ≤ radius_km
      then some (⟨station,
        round2 (haversineDistance ops lat lon station.lat station.lon)⟩ : RankedStation)
      else none) = keptStations ops stations lat lon radius_km := by
    induction stations with
    | nil => rfl
    | cons s rest ih =>
      by_cases hc : haversineDistance ops lat lon s.lat s.lon ≤ radius_km <;>
        simp_all [keptStations, List.filterMap_cons, List.filter_cons, hc]
  show (stations.filterMap (fun station =>
      if haversineDistance ops lat lon station.lat station.lon ≤ radius_km
      then some (⟨station,
        round2 (haversineDistance ops lat lon station.lat station.lon)⟩ : RankedStation)
      else none)).mergeSort (fun a b => decide (a.distance_km ≤ b.distance_km)) = _
  rw [h]

/-- Claim C1: for every query point and radius (and every realisation of the
float trigonometry), `search_stations_by_location` returns a permutation of
the stations whose haversine distance (mean Earth radius 6371 km) is at most
`radius_km`, each annotated with `distance_km = round2 distance`; the result
is sorted ascending by `distance_km`, ties (and in particular equal
distances) keep their original directory order, and every returned
`distance_km` is at most `radius_km` up to the 2-decimal rounding margin. -/
theorem search_stations_by_location_spec (ops : TrigOps) (stations : List Station)
    (lat lon radius_km : ℚ) :
    List.Perm (search_stations_by_location ops stations lat lon radius_km)
      (keptStations ops stations lat lon radius_km) ∧
    List.Pairwise (fun a b : RankedStation => a.distance_km ≤ b.distance_km)
      (search_stations_by_location ops stations lat lon radius_km) ∧
    (∀ a b : RankedStation, a.distance_km ≤ b.distance_km →
      List.Sublist [a, b] (keptStations ops stations lat lon radius_km) →
      List.Sublist [a, b] (search_stations_by_location ops stations lat lon radius_km)) ∧
    (∀ x ∈ search_stations_by_location ops stations lat lon radius_km,
      ∃ station ∈ stations,
        haversineDistance ops lat lon station.lat station.lon ≤ radius_km ∧
        x.station = station ∧
        x.distance_km =
          round2 (haversineDistance ops lat lon station.lat station.lon) ∧
        x.distance_km ≤ radius_km + 1/200) := by
  have heq := search_by_location_eq_mergeSort ops stations lat lon radius_km
  have htrans : ∀ a b c : RankedStation,
      decide (a.distance_km ≤ b.distance_km) = true →
      decide (b.distance_km ≤ c.distance_km) = true →
      decide (a.distance_km ≤ c.distance_km) = true := by
    intro a b c hab hbc
    simp only [decide_eq_true_eq] at *
    exact le_trans hab hbc
  have htotal : ∀ a b : RankedStation,
      (decide (a.distance_km ≤ b.distance_km) ||
        decide (b.distance_km ≤ a.distance_km)) = true := by
    intro a b
    simpa using le_total a.distance_km b.distance_km
  refine ⟨?_, ?_, ?_, ?_⟩
  · rw [heq]
    exact List.mergeSort_perm _ _
  · rw [heq]
    exact (List.sorted_mergeSort htrans htotal _).imp (by simp)
  · intro a b hab hsub
    rw [heq]
    exact List.pair_sublist_mergeSort htrans htotal (by simpa using hab) hsub
  · intro x hx
    rw [heq] at hx
    rw [List.mem_mergeSort] at hx
    unfold keptStations at hx
    rw [List.mem_map] at hx
    obtain ⟨station, hmem, rfl⟩ := hx
    rw [List.mem_filter] at hmem
    obtain ⟨hmem, hdist⟩ := hmem
    rw [decide_eq_true_eq] at hdist
    exact ⟨station, hmem, hdist, rfl, rfl,
      le_trans (round2_le _) (by linarith)⟩

/-! ## Anchor timestamp (weather.py, `get_latest_data_time`)

A JST wall-clock instant is modelled by its calendar components; `toUs`
converts it to microseconds since an epoch, and `ofUs` is the normalising
inverse. Python's timezone-aware `datetime - timedelta(minutes=40)` is exact
absolute-time arithmetic (JST is a fixed offset), i.e. `ofUs (toUs d - 40
minutes)`; `replace(minute=(minute // 10) * 10, second=0, microsecond=0)`
rewrites the components in place. -/

structure DateTime where
  days : ℤ
  hour : ℕ
  minute : ℕ
  second : ℕ
  microsecond : ℕ
deriving DecidableEq

def usPerDay : ℤ := 86400000000

def DateTime.toUs (d : DateTime) : ℤ :=
  d.days * usPerDay + d.hour * 3600000000 + d.minute * 60000000 +
    d.second * 1000000 + d.microsecond

def DateTime.ofUs (t : ℤ) : DateTime :=
  { days := t / usPerDay
    hour := ((t % usPerDay) / 3600000000).toNat
    minute := ((t % 3600000000) / 60000000).toNat
    second := ((t % 60000000) / 1000000).toNat
    microsecond := (t % 1000000).toNat }

/-- `now - timedelta(minutes=40)`. -/
def DateTime.subMinutes (d : DateTime) (m : ℤ) : DateTime :=
  DateTime.ofUs (d.toUs - m * 60000000)

/-- `data_time.replace(minute=(data_time.minute // 10) * 10, second=0,
microsecond=0)`. -/
def DateTime.floorTo10Min (d : DateTime) : DateTime :=
  { days := d.days, hour := d.hour, minute := (d.minute / 10) * 10,
    second := 0, microsecond := 0 }

/-- weather.py `get_latest_data_time`, with the clock passed explicitly. -/
def get_latest_data_time (now : DateTime) : DateTime :=
  (now.subMinutes 40).floorTo10Min

/-- Claim C5: for every clock value, the anchor timestamp equals the current
time minus exactly 40 minutes floored to the nearest 10-minute boundary with
seconds and sub-seconds zeroed; in particular a frozen clock of 12:47 JST
yields anchor 12:00 JST. -/
theorem get_latest_data_time_spec :
    (∀ now : DateTime, (get_latest_data_time now).toUs =
      ((now.toUs - 40 * 60000000) / 600000000) * 600000000) ∧
    get_latest_data_time ⟨0, 12, 47, 0, 0⟩ = ⟨0, 12, 0, 0, 0⟩ := by
  constructor
  · intro now
    show (DateTime.floorTo10Min (DateTime.ofUs (now.toUs - 40 * 60000000))).toUs = _
    generalize now.toUs - 40 * 60000000 = t
    simp only [DateTime.floorTo10Min, DateTime.ofUs, DateTime.toUs, usPerDay]
    omega
  · decide

/-! ## Observation decoding (weather.py, `fetch_amedas_data` station loop)

The per-station decoding loop of `fetch_amedas_data` (lines 85-179) is
embedded as a pure function from the raw station blob to the decoded record;
the HTTP fetch around it is outside the decoded-per-station claims. A raw
blob is the mapping of the known channel keys to raw channel values; `none`
models an absent key. `parse_observation_value` may raise (on wire tuples
longer than 2), so decoding is `Except`-valued, mirroring Python exception
propagation out of the loop. -/

/-- A raw JSON channel value: null, or a list of numbers-or-null. -/
abbrev RawValue := Option (List (Option ℚ))

structure RawStation where
  temp : Option RawValue := none
  humidity : Option RawValue := none
  pressure : Option RawValue := none
  normalPressure : Option RawValue := none
  wind : Option RawValue := none
  windDirection : Option RawValue := none
  precipitation10m : Option RawValue := none
  precipitation1h : Option RawValue := none
  precipitation3h : Option RawValue := none
  precipitation24h : Option RawValue := none
  sun1h : Option RawValue := none
  snow : Option RawValue := none
  snow1h : Option RawValue := none
  snow6h : Option RawValue := none
  snow12h : Option RawValue := none
  snow24h : Option RawValue := none
deriving DecidableEq

/-- weather.py `WIND_DIRECTIONS` (16 compass points, English). -/
def WIND_DIRECTIONS : List (ℤ × String) :=
  [(1, "NNE"), (2, "NE"), (3, "ENE"), (4, "E"),
   (5, "ESE"), (6, "SE"), (7, "SSE"), (8, "S"),
   (9, "SSW"), (10, "SW"), (11, "WSW"), (12, "W"),
   (13, "WNW"), (14, "NW"), (15, "NNW"), (16, "N")]

/-- weather.py `WIND_DIRECTIONS_JA` (16 compass points, Japanese). -/
def WIND_DIRECTIONS_JA : List (ℤ × String) :=
  [(1, "北北東"), (2, "北東"), (3, "東北東"), (4, "東"),
   (5, "東南東"), (6, "南東"), (7, "南南東"), (8, "南"),
   (9, "南南西"), (10, "南西"), (11, "西南西"), (12, "西"),
   (13, "西北西"), (14, "北西"), (15, "北北西"), (16, "北")]

/-- Python `int()` applied to a float: truncation toward zero. -/
def truncToInt (q : ℚ) : ℤ := if 0 ≤ q then ⌊q⌋ else ⌈q⌉

structure ValueWithUnit where
  value : Option ℚ
  unit : String
deriving DecidableEq

structure WindInfo where
  speed : Option ℚ
  speed_unit : String
  direction : Option String
  direction_ja : Option String
  direction_code : Option ℤ
deriving DecidableEq

structure PrecipInfo where
  min10 : Option (Option ℚ)
  h1 : Option (Option ℚ)
  h3 : Option (Option ℚ)
  h24 : Option (Option ℚ)
  unit : String
deriving DecidableEq

structure SunshineInfo where
  h1 : Option ℚ
  unit : String
deriving DecidableEq

structure SnowInfo where
  depth : Option (Option ℚ)
  h1 : Option (Option ℚ)
  h6 : Option (Option ℚ)
  h12 : Option (Option ℚ)
  h24 : Option (Option ℚ)
  unit : String
deriving DecidableEq

structure StationData where
  code : String
  temperature : Option ValueWithUnit
  humidity : Option ValueWithUnit
  pressure : Option ValueWithUnit
  sea_level_pressure : Option ValueWithUnit
  wind : Option WindInfo
  precipitation : Option PrecipInfo
  sunshine : Option SunshineInfo
  snow : Option SnowInfo
deriving DecidableEq

/-- One `if key in data: station_data[k] = {"value": parse(...), "unit": u}`
block of the decoding loop. -/
def decodeVU (unit : String) : Option RawValue → Except Unit (Option ValueWithUnit)
  | none => pure none
  | some raw => do
    let v ← parse_observation_value raw
    pure (some { value := v, unit := unit })

/-- One `if key in data: group[k] = parse(...)` line of the precipitation and
snow groups. -/
def decodeRawOpt : Option RawValue → Except Unit (Option (Option ℚ))
  | none => pure none
  | some raw => do
    let v ← parse_observation_value raw
    pure (some v)

/-- The wind block of the decoding loop (weather.py lines 120-136): emitted
only when the `wind` key is present; the direction code is parsed from
`data.get("windDirection", [None, None])`, converted by `int()`, and looked
up in both compass tables. -/
def decodeWind (wind windDirection : Option RawValue) :
    Except Unit (Option WindInfo) :=
  match wind with
  | none => pure none
  | some raw => do
    let wind_speed ← parse_observation_value raw
    let dirValue ← parse_observation_value (windDirection.getD (some [none, none]))
    let wind_dir_code : Option ℤ := dirValue.map truncToInt
    pure (some
      { speed := wind_speed
        speed_unit := "m/s"
        direction := wind_dir_code.bind (fun c => WIND_DIRECTIONS.lookup c)
        direction_ja := wind_dir_code.bind (fun c => WIND_DIRECTIONS_JA.lookup c)
        direction_code := wind_dir_code })

/-- The sunshine block (`if "sun1h" in data`). -/
def decodeSun : Option RawValue → Except Unit (Option SunshineInfo)
  | none => pure none
  | some raw => do
    let v ← parse_observation_value raw
    pure (some { h1 := v, unit := "hours" })

/-- The per-station body of the `fetch_amedas_data` loop: decode each present
channel with its fixed unit; the wind sub-object is gated on the `wind` key;
the precipitation and snow sub-objects are emitted when at least one of
their constituent keys is present (`if precipitation:` / `if snow:` on the
accumulated dicts). -/
def decode_station (code : String) (data : RawStation) :
    Except Unit StationData := do
  let temperature ← decodeVU "℃" data.temp
  let humidity ← decodeVU "%" data.humidity
  let pressure ← decodeVU "hPa" data.pressure
  let sea_level_pressure ← decodeVU "hPa" data.normalPressure
  let wind ← decodeWind data.wind data.windDirection
  let p10 ← decodeRawOpt data.precipitation10m
  let p1 ← decodeRawOpt data.precipitation1h
  let p3 ← decodeRawOpt data.precipitation3h
  let p24 ← decodeRawOpt data.precipitation24h
  let precipitation :=
    if p10.isSome || p1.isSome || p3.isSome || p24.isSome then
      some { min10 := p10, h1 := p1, h3 := p3, h24 := p24, unit := "mm" }
    else none
  let sunshine ← decodeSun data.sun1h
  let sd ← decodeRawOpt data.snow
  let s1 ← decodeRawOpt data.snow1h
  let s6 ← decodeRawOpt data.snow6h
  let s12 ← decodeRawOpt data.snow12h
  let s24 ← decodeRawOpt data.snow24h
  let snow :=
    if sd.isSome || s1.isSome || s6.isSome || s12.isSome || s24.isSome then
      some { depth := sd, h1 := s1, h6 := s6, h12 := s12, h24 := s24, unit := "cm" }
    else none
  pure { code := code, temperature := temperature, humidity := humidity,
         pressure := pressure, sea_level_pressure := sea_level_pressure,
         wind := wind, precipitation := precipitation, sunshine := sunshine,
         snow := snow }

theorem except_bind_ok {α β : Type} {x : Except Unit α} {f : α → Except Unit β}
    {b : β} (h : x >>= f = .ok b) : ∃ a, x = .ok a ∧ f a = .ok b := by
  cases x with
  | ok a => exact ⟨a, rfl, h⟩
  | error e => simp [Bind.bind, Except.bind] at h

theorem except_pure_ok {α : Type} {a b : α}
    (h : (pure a : Except Unit α) = .ok b) : a = b := by
  simpa [pure, Except.pure] using h

theorem decodeVU_ok {u : String} {o : Option RawValue} {r : Option ValueWithUnit}
    (h : decodeVU u o = .ok r) :
    (∀ t, r = some t → t.unit = u) ∧ (r.isSome ↔ o.isSome) := by
  cases o with
  | none =>
    have := except_pure_ok h
    subst this
    simp
  | some raw =>
    unfold decodeVU at h
    obtain ⟨v, hv, h⟩ := except_bind_ok h
    have := except_pure_ok h
    subst this
    constructor
    · rintro t ht
      cases ht
      rfl
    · simp

theorem decodeSun_ok {o : Option RawValue} {r : Option SunshineInfo}
    (h : decodeSun o = .ok r) :
    (∀ s, r = some s → s.unit = "hours") ∧ (r.isSome ↔ o.isSome) := by
  cases o with
  | none =>
    have := except_pure_ok h
    subst this
    simp
  | some raw =>
    unfold decodeSun at h
    obtain ⟨v, hv, h⟩ := except_bind_ok h
    have := except_pure_ok h
    subst this
    constructor
    · rintro s hs
      cases hs
      rfl
    · simp

theorem decodeWind_gate {w d : Option RawValue} {r : Option WindInfo}
    (h : decodeWind w d = .ok r) :
    (r.isSome ↔ w.isSome) ∧ (∀ wi, r = some wi → wi.speed_unit = "m/s") := by
  cases w with
  | none =>
    have := except_pure_ok h
    subst this
    simp
  | some raw =>
    unfold decodeWind at h
    obtain ⟨speed, hs, h⟩ := except_bind_ok h
    obtain ⟨dv, hd, h⟩ := except_bind_ok h
    have := except_pure_ok h
    subst this
    constructor
    · simp
    · rintro wi hwi
      cases hwi
      rfl

theorem decode_station_ok {code : String} {data : RawStation} {out : StationData}
    (h : decode_station code data = .ok out) :
    out.code = code ∧
    decodeVU "℃" data.temp = .ok out.temperature ∧
    decodeVU "%" data.humidity = .ok out.humidity ∧
    decodeVU "hPa" data.pressure = .ok out.pressure ∧
    decodeVU "hPa" data.normalPressure = .ok out.sea_level_pressure ∧
    decodeWind data.wind data.windDirection = .ok out.wind ∧
    decodeSun data.sun1h = .ok out.sunshine ∧
    (∃ p10 p1 p3 p24,
      decodeRawOpt data.precipitation10m = .ok p10 ∧
      decodeRawOpt data.precipitation1h = .ok p1 ∧
      decodeRawOpt data.precipitation3h = .ok p3 ∧
      decodeRawOpt data.precipitation24h = .ok p24 ∧
      out.precipitation =
        (if p10.isSome || p1.isSome || p3.isSome || p24.isSome then
          some { min10 := p10, h1 := p1, h3 := p3, h24 := p24, unit := "mm" }
        else none)) ∧
    (∃ sd s1 s6 s12 s24,
      decodeRawOpt data.snow = .ok sd ∧
      decodeRawOpt data.snow1h = .ok s1 ∧
      decodeRawOpt data.snow6h = .ok s6 ∧
      decodeRawOpt data.snow12h = .ok s12 ∧
      decodeRawOpt data.snow24h = .ok s24 ∧
      out.snow =
        (if sd.isSome || s1.isSome || s6.isSome || s12.isSome || s24.isSome then
          some { depth := sd, h1 := s1, h6 := s6, h12 := s12, h24 := s24,
                 unit := "cm" }
        else none)) := by
  unfold decode_station at h
  obtain ⟨temperature, ht, h⟩ := except_bind_ok h
  obtain ⟨humidity, hh, h⟩ := except_bind_ok h
  obtain ⟨pressure, hp, h⟩ := except_bind_ok h
  obtain ⟨sea_level_pressure, hsl, h⟩ := except_bind_ok h
  obtain ⟨wind, hw, h⟩ := except_bind_ok h
  obtain ⟨p10, h10, h⟩ := except_bind_ok h
  obtain ⟨p1, h1, h⟩ := except_bind_ok h
  obtain ⟨p3, h3, h⟩ := except_bind_ok h
  obtain ⟨p24, h24, h⟩ := except_bind_ok h
  obtain ⟨sunshine, hsun, h⟩ := except_bind_ok h
  obtain ⟨sd, hsd, h⟩ := except_bind_ok h
  obtain ⟨s1, hs1, h⟩ := except_bind_ok h
  obtain ⟨s6, hs6, h⟩ := except_bind_ok h
  obtain ⟨s12, hs12, h⟩ := except_bind_ok h
  obtain ⟨s24, hs24, h⟩ := except_bind_ok h
  have := except_pure_ok h
  subst this
  exact ⟨rfl, ht, hh, hp, hsl, hw, hsun,
    ⟨p10, p1, p3, p24, h10, h1, h3, h24, rfl⟩,
    ⟨sd, s1, s6, s12, s24, hsd, hs1, hs6, hs12, hs24, rfl⟩⟩

theorem decodeRawOpt_ok {o : Option RawValue} {r : Option (Option ℚ)}
    (h : decodeRawOpt o = .ok r) : r.isSome ↔ o.isSome := by
  cases o with
  | none =>
    have := except_pure_ok h
    subst this
    simp
  | some raw =>
    unfold decodeRawOpt at h
    obtain ⟨v, hv, h⟩ := except_bind_ok h
    have := except_pure_ok h
    subst this
    simp

theorem lookup_eq_none_of_no_key {l : List (ℤ × String)} {c : ℤ}
    (h : ∀ p ∈ l, p.1 ≠ c) : l.lookup c = none := by
  induction l with
  | nil => rfl
  | cons p rest ih =>
    rw [List.lookup_cons]
    have hb : (c == p.1) = false := by
      simp only [beq_eq_false_iff_ne, ne_eq]
      intro hc
      exact h p (by simp) hc.symm
    rw [hb]
    exact ih (fun q hq => h q (by simp [hq]))

theorem wind_lookup_isSome {c : ℤ} (h1 : 1 ≤ c) (h2 : c ≤ 16) :
    (WIND_DIRECTIONS.lookup c).isSome ∧ (WIND_DIRECTIONS_JA.lookup c).isSome := by
  interval_cases c <;> exact ⟨rfl, rfl⟩

theorem wind_lookup_none {c : ℤ} (h : c < 1 ∨ 16 < c) :
    WIND_DIRECTIONS.lookup c = none ∧ WIND_DIRECTIONS_JA.lookup c = none := by
  constructor <;>
  · apply lookup_eq_none_of_no_key
    intro p hp
    fin_cases hp <;> simp <;> omega

/-- How the wind block decodes a present direction tuple `[v, qf]` with both
entries non-null: the code is `int()`-truncated and looked up in both tables. -/
theorem decodeWind_dir {raw : RawValue} {dir : Option RawValue} {v qf : ℚ}
    {r : Option WindInfo} (hdir : dir = some (some [some v, some qf]))
    (h : decodeWind (some raw) dir = .ok r) :
    ∃ wi, r = some wi ∧
      wi.direction_code = some (truncToInt v) ∧
      wi.direction = WIND_DIRECTIONS.lookup (truncToInt v) ∧
      wi.direction_ja = WIND_DIRECTIONS_JA.lookup (truncToInt v) := by
  subst hdir
  unfold decodeWind at h
  obtain ⟨speed, hs, h⟩ := except_bind_ok h
  obtain ⟨dv, hd, h⟩ := except_bind_ok h
  have hparse : parse_observation_value
      ((some (some [some v, some qf]) : Option RawValue).getD (some [none, none])) =
      .ok (some v) := rfl
  rw [hparse] at hd
  have hdv : some v = dv := Except.ok.inj hd
  subst hdv
  have := except_pure_ok h
  subst this
  exact ⟨_, rfl, rfl, rfl, rfl⟩

/-- Claim C7 (counterexample): the unit string the decoder attaches to the
temperature channel is the single-codepoint Celsius sign `"℃"`, not the
two-codepoint string `"°C"` the claim names. -/
theorem temperature_unit_counterexample :
    (match decode_station "44132" { temp := some (some [some 10, some 0]) } with
     | .ok out => out.temperature
     | .error _ => none) = some { value := some 10, unit := "℃" } ∧
    ("℃" : String) ≠ "°C" := by
  exact ⟨rfl, by decide⟩

/-- Claim C7 (amended): for every raw station blob and every known channel key
present in it, a successful decode attaches the designated fixed unit string
for that channel — the Celsius sign "℃" for temperature, "%" for humidity,
"hPa" for pressure and sea-level pressure, "m/s" for wind speed, "mm" for
precipitation, "hours" for sunshine, "cm" for snow — independent of the
input values. -/
theorem decode_station_units (code : String) (data : RawStation)
    (out : StationData) (h : decode_station code data = .ok out) :
    (data.temp.isSome → ∃ t, out.temperature = some t ∧ t.unit = "℃") ∧
    (data.humidity.isSome → ∃ t, out.humidity = some t ∧ t.unit = "%") ∧
    (data.pressure.isSome → ∃ t, out.pressure = some t ∧ t.unit = "hPa") ∧
    (data.normalPressure.isSome →
      ∃ t, out.sea_level_pressure = some t ∧ t.unit = "hPa") ∧
    (data.wind.isSome → ∃ w, out.wind = some w ∧ w.speed_unit = "m/s") ∧
    ((data.precipitation10m.isSome ∨ data.precipitation1h.isSome ∨
      data.precipitation3h.isSome ∨ data.precipitation24h.isSome) →
      ∃ p, out.precipitation = some p ∧ p.unit = "mm") ∧
    (data.sun1h.isSome → ∃ s, out.sunshine = some s ∧ s.unit = "hours") ∧
    ((data.snow.isSome ∨ data.snow1h.isSome ∨ data.snow6h.isSome ∨
      data.snow12h.isSome ∨ data.snow24h.isSome) →
      ∃ s, out.snow = some s ∧ s.unit = "cm") := by
  obtain ⟨-, ht, hh, hp, hsl, hw, hsun, hprec, hsnow⟩ := decode_station_ok h
  refine ⟨?_, ?_, ?_, ?_, ?_, ?_, ?_, ?_⟩
  · intro hk
    obtain ⟨hu, hiff⟩ := decodeVU_ok ht
    obtain ⟨t, htemp⟩ := Option.isSome_iff_exists.mp (hiff.mpr hk)
    exact ⟨t, htemp, hu t htemp⟩
  · intro hk
    obtain ⟨hu, hiff⟩ := decodeVU_ok hh
    obtain ⟨t, hval⟩ := Option.isSome_iff_exists.mp (hiff.mpr hk)
    exact ⟨t, hval, hu t hval⟩
  · intro hk
    obtain ⟨hu, hiff⟩ := decodeVU_ok hp
    obtain ⟨t, hval⟩ := Option.isSome_iff_exists.mp (hiff.mpr hk)
    exact ⟨t, hval, hu t hval⟩
  · intro hk
    obtain ⟨hu, hiff⟩ := decodeVU_ok hsl
    obtain ⟨t, hval⟩ := Option.isSome_iff_exists.mp (hiff.mpr hk)
    exact ⟨t, hval, hu t hval⟩
  · intro hk
    obtain ⟨hiff, hu⟩ := decodeWind_gate hw
    obtain ⟨w, hval⟩ := Option.isSome_iff_exists.mp (hiff.mpr hk)
    exact ⟨w, hval, hu w hval⟩
  · intro hk
    obtain ⟨p10, p1, p3, p24, h10, h1, h3, h24, hout⟩ := hprec
    have hcond : (p10.isSome || p1.isSome || p3.isSome || p24.isSome) = true := by
      rcases hk with hk | hk | hk | hk
      · simp [(decodeRawOpt_ok h10).mpr hk]
      · simp [(decodeRawOpt_ok h1).mpr hk]
      · simp [(decodeRawOpt_ok h3).mpr hk]
      · simp [(decodeRawOpt_ok h24).mpr hk]
    rw [hout, if_pos hcond]
    exact ⟨_, rfl, rfl⟩
  · intro hk
    obtain ⟨hu, hiff⟩ := decodeSun_ok hsun
    obtain ⟨s, hval⟩ := Option.isSome_iff_exists.mp (hiff.mpr hk)
    exact ⟨s, hval, hu s hval⟩
  · intro hk
    obtain ⟨sd, s1, s6, s12, s24, hsd, hs1, hs6, hs12, hs24, hout⟩ := hsnow
    have hcond : (sd.isSome || s1.isSome || s6.isSome || s12.isSome ||
        s24.isSome) = true := by
      rcases hk with hk | hk | hk | hk | hk
      · simp [(decodeRawOpt_ok hsd).mpr hk]
      · simp [(decodeRawOpt_ok hs1).mpr hk]
      · simp [(decodeRawOpt_ok hs6).mpr hk]
      · simp [(decodeRawOpt_ok hs12).mpr hk]
      · simp [(decodeRawOpt_ok hs24).mpr hk]
    rw [hout, if_pos hcond]
    exact ⟨_, rfl, rfl⟩

theorem decode_station_units_witness :
    ∃ out, decode_station "44132"
        { temp := some (some [some 10, some 0]),
          snow1h := some (some [some 3, some 0]) } = .ok out ∧
      (∃ t, out.temperature = some t ∧ t.unit = "℃") ∧
      (∃ s, out.snow = some s ∧ s.unit = "cm") := by
  have h : decode_station "44132"
      { temp := some (some [some 10, some 0]),
        snow1h := some (some [some 3, some 0]) } =
      .ok { code := "44132",
            temperature := some { value := some 10, unit := "℃" },
            humidity := none, pressure := none, sea_level_pressure := none,
            wind := none, precipitation := none, sunshine := none,
            snow := some { depth := none, h1 := some (some 3), h6 := none,
                           h12 := none, h24 := none, unit := "cm" } } := by
    rfl
  refine ⟨_, h, ?_, ?_⟩
  · exact (decode_station_units _ _ _ h).1 rfl
  · exact (decode_station_units _ _ _ h).2.2.2.2.2.2.2 (Or.inr (Or.inl rfl))

/-- Claim C10: the wind sub-object is emitted exactly when the wind-speed key
is present in the raw blob; a blob with `windDirection` but no `wind` key
yields no wind sub-object, silently dropping the direction reading. -/
theorem decode_station_wind_gating (code : String) (data : RawStation)
    (out : StationData) (h : decode_station code data = .ok out) :
    (out.wind.isSome ↔ data.wind.isSome) ∧
    (data.wind = none → out.wind = none) := by
  obtain ⟨-, -, -, -, -, hw, -⟩ := decode_station_ok h
  obtain ⟨hiff, -⟩ := decodeWind_gate hw
  refine ⟨hiff, fun hnone => ?_⟩
  rw [← Option.not_isSome_iff_eq_none]
  rw [hiff, hnone]
  simp

theorem decode_station_wind_gating_witness :
    ∃ out, decode_station "44132"
        { windDirection := some (some [some 8, some 0]) } = .ok out ∧
      out.wind = none := by
  have h : decode_station "44132"
      { windDirection := some (some [some 8, some 0]) } =
      .ok { code := "44132", temperature := none, humidity := none,
            pressure := none, sea_level_pressure := none, wind := none,
            precipitation := none, sunshine := none, snow := none } := by
    rfl
  exact ⟨_, h, (decode_station_wind_gating _ _ _ h).2 rfl⟩

/-- Claim C4 (counterexample): a fractional wind-direction code does not yield
null textual directions — the code 16.5 is `int()`-truncated to 16 and looked
up, yielding English "N" and the localized label, and `direction_code`
reports the truncated 16, not the raw 16.5. -/
theorem wind_direction_fractional_counterexample :
    (match decode_station "44132"
        { wind := some (some [some 5, some 0]),
          windDirection := some (some [some (33/2), some 0]) } with
     | .ok out => out.wind
     | .error _ => none) =
      some { speed := some 5, speed_unit := "m/s", direction := some "N",
             direction_ja := some "北", direction_code := some 16 } ∧
    ¬ ∃ n : ℤ, ((33 : ℚ)/2) = (n : ℚ) := by
  constructor
  · have hq : ((33 : ℚ)/2) = (⟨33, 2, by decide, by decide⟩ : ℚ) := by
      rw [← Rat.num_div_den (⟨33, 2, by decide, by decide⟩ : ℚ)]
      norm_num
    rw [hq]
    rfl
  · rintro ⟨n, hn⟩
    have hden : ((33 : ℚ)/2).den = 1 := by
      rw [hn]
      exact Rat.den_intCast n
    norm_num at hden

/-- Claim C4 (amended): a decoded wind-direction code is first truncated
toward zero to an integer; a truncated code in 1..16 is looked up in both the
English and the localized compass tables (truncated code 16 giving English
"N"), while a code whose truncation is out of range yields null for both
textual directions, with the truncated integer code (not the raw numeric
value) reported in `direction_code`. -/
theorem wind_direction_trunc_spec (code : String) (data : RawStation)
    (out : StationData) (wi : WindInfo) (v qf : ℚ)
    (h : decode_station code data = .ok out)
    (hwind : out.wind = some wi)
    (hdir : data.windDirection = some (some [some v, some qf])) :
    wi.direction_code = some (truncToInt v) ∧
    wi.direction = WIND_DIRECTIONS.lookup (truncToInt v) ∧
    wi.direction_ja = WIND_DIRECTIONS_JA.lookup (truncToInt v) ∧
    (1 ≤ truncToInt v → truncToInt v ≤ 16 →
      wi.direction.isSome ∧ wi.direction_ja.isSome) ∧
    (truncToInt v = 16 → wi.direction = some "N" ∧ wi.direction_ja = some "北") ∧
    (truncToInt v < 1 ∨ 16 < truncToInt v →
      wi.direction = none ∧ wi.direction_ja = none) := by
  obtain ⟨-, -, -, -, -, hw, -⟩ := decode_station_ok h
  rw [hwind] at hw
  cases hwd : data.wind with
  | none =>
    rw [hwd] at hw
    exact absurd (except_pure_ok hw) (by simp)
  | some raw =>
    rw [hwd] at hw
    obtain ⟨wi', hwi', hcode, hdirec, hdirja⟩ := decodeWind_dir hdir hw
    have hwiwi : wi' = wi := (Option.some.inj hwi').symm
    subst hwiwi
    refine ⟨hcode, hdirec, hdirja, ?_, ?_, ?_⟩
    · intro hlo hhi
      obtain ⟨he, hj⟩ := wind_lookup_isSome hlo hhi
      rw [hdirec, hdirja]
      exact ⟨he, hj⟩
    · intro h16
      rw [hdirec, hdirja, h16]
      exact ⟨rfl, rfl⟩
    · intro hrange
      obtain ⟨he, hj⟩ := wind_lookup_none hrange
      rw [hdirec, hdirja, he, hj]
      exact ⟨rfl, rfl⟩

theorem wind_direction_trunc_spec_witness :
    ∃ out wi, decode_station "44132"
        { wind := some (some [some 3, some 0]),
          windDirection := some (some [some 2, some 0]) } = .ok out ∧
      out.wind = some wi ∧
      wi.direction_code = some 2 ∧ wi.direction = some "NE" ∧
      wi.direction_ja = some "北東" := by
  have h : decode_station "44132"
      { wind := some (some [some 3, some 0]),
        windDirection := some (some [some 2, some 0]) } =
      .ok { code := "44132", temperature := none, humidity := none,
            pressure := none, sea_level_pressure := none,
            wind := some { speed := some 3, speed_unit := "m/s",
                           direction := some "NE", direction_ja := some "北東",
                           direction_code := some 2 },
            precipitation := none, sunshine := none, snow := none } := by
    rfl
  have hs := wind_direction_trunc_spec _ _ _ _ 2 0 h rfl rfl
  refine ⟨_, _, h, rfl, ?_, ?_, ?_⟩
  · rw [hs.1]
    decide
  · rw [hs.2.1]
    decide
  · rw [hs.2.2.1]
    decide

/-! ## Time-series assembly

`fetch_time_series_data` is imported by server.py and exercised by the test
suite, but its definition is not among the sources; it is modelled from the
specification of the Time-Series Assembler. -/

structure TimeSeriesResult where
  station_code : String
  interval_minutes : ℕ
  time_series : List (ℤ × StationData)
  data_points : ℕ
deriving DecidableEq

/-- Modelled from the spec: `fetch_time_series_data` (the Time-Series
Assembler, spec section 4.3) is imported by server.py from weather.py but its
definition is missing from the sources. Per the spec it generates the
descending sequence of timestamps anchor, anchor − interval, … for
`ceil(hours*60 / intervalMinutes)` points, fetches and decodes each one,
swallows per-point failures (a failed point is omitted, modelled here by a
fetch oracle returning `none` and by a failing decode), never fails overall,
and reports `data_points = len(series)` with the echoed interval and station
code. Timestamps are in minutes; the fetch oracle stands for the network. -/
def fetch_time_series_data (fetch : ℤ → Option RawStation)
    (station_code : String) (anchor : ℤ) (hours interval_minutes : ℕ) :
    TimeSeriesResult :=
  let timestamps := (List.range ((hours * 60 + interval_minutes - 1) /
      interval_minutes)).map (fun i : ℕ => anchor - (i : ℤ) * (interval_minutes : ℤ))
  let series := timestamps.filterMap (fun t =>
    ((fetch t).bind (fun blob =>
      (decode_station station_code blob).toOption)).map (fun d => (t, d)))
  { station_code := station_code, interval_minutes := interval_minutes,
    time_series := series, data_points := series.length }

theorem except_toOption_eq_some {α : Type} {x : Except Unit α} {a : α}
    (h : x.toOption = some a) : x = .ok a := by
  cases x with
  | ok b => simpa [Except.toOption] using congrArg some (Option.some.inj h)
  | error e => simp [Except.toOption] at h

/-- Claim C2: for every station code, hours, and interval in {10, 30, 60},
the time-series operation omits every timestamp whose fetch or decode fails
without aborting the other points — each returned point comes from a
successful fetch and decode, and conversely every generated timestamp whose
fetch and decode succeed is retained in the series, whatever happens at the
other timestamps — succeeds overall even when every point fails, reporting
zero data points rather than an error, and its `data_points` equals the
length of the returned series; the station code and interval are echoed. -/
theorem fetch_time_series_data_spec (fetch : ℤ → Option RawStation)
    (station_code : String) (anchor : ℤ) (hours interval_minutes : ℕ)
    (_hint : interval_minutes = 10 ∨ interval_minutes = 30 ∨
      interval_minutes = 60) :
    (fetch_time_series_data fetch station_code anchor hours
        interval_minutes).data_points =
      (fetch_time_series_data fetch station_code anchor hours
        interval_minutes).time_series.length ∧
    (fetch_time_series_data fetch station_code anchor hours
        interval_minutes).station_code = station_code ∧
    (fetch_time_series_data fetch station_code anchor hours
        interval_minutes).interval_minutes = interval_minutes ∧
    (∀ t d, (t, d) ∈ (fetch_time_series_data fetch station_code anchor hours
        interval_minutes).time_series →
      ∃ blob, fetch t = some blob ∧ decode_station station_code blob = .ok d) ∧
    (∀ i < (hours * 60 + interval_minutes - 1) / interval_minutes,
      ∀ blob d, fetch (anchor - i * interval_minutes) = some blob →
        decode_station station_code blob = .ok d →
        (anchor - i * interval_minutes, d) ∈
          (fetch_time_series_data fetch station_code anchor hours
            interval_minutes).time_series) ∧
    ((∀ t, fetch t = none) →
      (fetch_time_series_data fetch station_code anchor hours
        interval_minutes).data_points = 0 ∧
      (fetch_time_series_data fetch station_code anchor hours
        interval_minutes).time_series = []) := by
  refine ⟨rfl, rfl, rfl, ?_, ?_, ?_⟩
  · intro t d hmem
    simp only [fetch_time_series_data, List.mem_filterMap, List.mem_map,
      List.mem_range] at hmem
    obtain ⟨t', -, hval⟩ := hmem
    rw [Option.map_eq_some'] at hval
    obtain ⟨d', hbind, htd⟩ := hval
    obtain ⟨ht, hd⟩ := Prod.mk.injEq .. ▸ htd
    subst ht
    subst hd
    rw [Option.bind_eq_some] at hbind
    obtain ⟨blob, hfetch, hdec⟩ := hbind
    exact ⟨blob, hfetch, except_toOption_eq_some hdec⟩
  · intro i hi blob d hfetch hdec
    refine List.mem_filterMap.mpr ⟨anchor - i * interval_minutes, ?_, ?_⟩
    · exact List.mem_map.mpr ⟨i, List.mem_range.mpr hi, rfl⟩
    · rw [hfetch]
      show ((decode_station station_code blob).toOption).map
          (fun d => (anchor - i * interval_minutes, d)) = _
      rw [hdec]
      rfl
  · intro hfail
    have hnil : (fetch_time_series_data fetch station_code anchor hours
        interval_minutes).time_series = [] := by
      simp only [fetch_time_series_data]
      rw [List.filterMap_eq_nil_iff]
      intro t htmem
      rw [hfail]
      rfl
    constructor
    · show (fetch_time_series_data fetch station_code anchor hours
          interval_minutes).time_series.length = 0
      rw [hnil]
      rfl
    · exact hnil

theorem fetch_time_series_data_spec_witness :
    (10 = 10 ∨ 10 = 30 ∨ 10 = 60) ∧
    (fetch_time_series_data (fun _ => none) "44132" 0 3 10).data_points = 0 ∧
    (fetch_time_series_data (fun _ => (none : Option RawStation)) "44132" 0 3
      10).time_series = [] ∧
    ((0 : ℤ) - 0 * 10,
      { code := "44132", temperature := none, humidity := none,
        pressure := none, sea_level_pressure := none, wind := none,
        precipitation := none, sunshine := none, snow := none }) ∈
      (fetch_time_series_data (fun _ => some {}) "44132" 0 3
        10).time_series := by
  have hall := (fetch_time_series_data_spec (fun _ => none) "44132" 0 3 10
    (Or.inl rfl)).2.2.2.2.2 (fun _ => rfl)
  have hret := (fetch_time_series_data_spec (fun _ => some {}) "44132" 0 3 10
    (Or.inl rfl)).2.2.2.2.1 0 (by norm_num) {}
    { code := "44132", temperature := none, humidity := none,
      pressure := none, sea_level_pressure := none, wind := none,
      precipitation := none, sunshine := none, snow := none } rfl rfl
  exact ⟨Or.inl rfl, hall.1, hall.2, hret⟩

/-! ## Forecast dispatch (weather.py `AREA_CODES`, server.py `get_forecast`)

The `get_forecast` branch of server.py's `call_tool`: look the prefecture up
in the fixed table; on a missing (or falsy) area code, return the error
payload listing every valid key without touching the network; otherwise
fetch the forecast for that area code. The network fetch is abstracted as a
function parameter, so "no fetch attempted" is expressed by the error result
being independent of it. -/

def AREA_CODES : List (String × String) :=
  [("hokkaido_sapporo", "016000"), ("aomori", "020000"), ("iwate", "030000"),
   ("miyagi", "040000"), ("akita", "050000"), ("yamagata", "060000"),
   ("fukushima", "070000"), ("ibaraki", "080000"), ("tochigi", "090000"),
   ("gunma", "100000"), ("saitama", "110000"), ("chiba", "120000"),
   ("tokyo", "130000"), ("kanagawa", "140000"), ("niigata", "150000"),
   ("toyama", "160000"), ("ishikawa", "170000"), ("fukui", "180000"),
   ("yamanashi", "190000"), ("nagano", "200000"), ("gifu", "210000"),
   ("shizuoka", "220000"), ("aichi", "230000"), ("mie", "240000"),
   ("shiga", "250000"), ("kyoto", "260000"), ("osaka", "270000"),
   ("hyogo", "280000"), ("nara", "290000"), ("wakayama", "300000"),
   ("tottori", "310000"), ("shimane", "320000"), ("okayama", "330000"),
   ("hiroshima", "340000"), ("yamaguchi", "350000"), ("tokushima", "360000"),
   ("kagawa", "370000"), ("ehime", "380000"), ("kochi", "390000"),
   ("fukuoka", "400000"), ("saga", "410000"), ("nagasaki", "420000"),
   ("kumamoto", "430000"), ("oita", "440000"), ("miyazaki", "450000"),
   ("kagoshima", "460000"), ("okinawa", "470000")]

inductive ForecastOutcome (α : Type) where
  | errorPayload (error : String) (available : List String)
  | ok (prefecture : String) (area_code : String) (forecast : α)
deriving DecidableEq

/-- server.py `call_tool`, `get_forecast` branch: `AREA_CODES.get(prefecture)`
then `if not area_code:` (None or empty string) → error payload with the
valid keys, else fetch the forecast for the area code. -/
def get_forecast_tool {α : Type} (fetch_forecast : String → α)
    (prefecture : String) : ForecastOutcome α :=
  match AREA_CODES.lookup prefecture with
  | none =>
    .errorPayload ("Unknown prefecture: " ++ prefecture)
      (AREA_CODES.map Prod.fst)
  | some area_code =>
    if area_code = "" then
      .errorPayload ("Unknown prefecture: " ++ prefecture)
        (AREA_CODES.map Prod.fst)
    else .ok prefecture area_code (fetch_forecast area_code)

theorem lookup_some_mem {l : List (String × String)} {k v : String}
    (h : l.lookup k = some v) : ∃ p ∈ l, p.2 = v := by
  induction l with
  | nil => simp [List.lookup] at h
  | cons p rest ih =>
    rw [List.lookup_cons] at h
    cases hb : k == p.1 with
    | true =>
      rw [hb] at h
      exact ⟨p, by simp, Option.some.inj h⟩
    | false =>
      rw [hb] at h
      obtain ⟨q, hq, hv⟩ := ih h
      exact ⟨q, by simp [hq], hv⟩

theorem area_codes_nonempty : ∀ p ∈ AREA_CODES, p.2 ≠ "" := by decide

/-- Claim C8: for every prefecture key not in the fixed 47-entry table,
`get_forecast` returns the error payload whose `available` field lists all 47
valid keys, without attempting any fetch (the result is independent of the
fetch function); for every key in the table the fetch is performed with that
key's area code. -/
theorem get_forecast_tool_spec {α : Type} (fetch_forecast : String → α)
    (prefecture : String) :
    (AREA_CODES.lookup prefecture = none →
      get_forecast_tool fetch_forecast prefecture =
        .errorPayload ("Unknown prefecture: " ++ prefecture)
          (AREA_CODES.map Prod.fst) ∧
      (AREA_CODES.map Prod.fst).length = 47 ∧
      (∀ fetch2 : String → α, get_forecast_tool fetch_forecast prefecture =
        get_forecast_tool fetch2 prefecture)) ∧
    (∀ area_code, AREA_CODES.lookup prefecture = some area_code →
      get_forecast_tool fetch_forecast prefecture =
        .ok prefecture area_code (fetch_forecast area_code)) := by
  constructor
  · intro hnone
    refine ⟨?_, by decide, ?_⟩
    · unfold get_forecast_tool
      rw [hnone]
    · intro fetch2
      unfold get_forecast_tool
      rw [hnone]
  · intro area_code hsome
    have hne : area_code ≠ "" := by
      obtain ⟨p, hp, hv⟩ := lookup_some_mem hsome
      rw [← hv]
      exact area_codes_nonempty p hp
    unfold get_forecast_tool
    rw [hsome]
    simp [hne]

theorem get_forecast_tool_spec_witness :
    AREA_CODES.lookup "paris" = none ∧
    get_forecast_tool (fun c => c) "paris" =
      .errorPayload "Unknown prefecture: paris" (AREA_CODES.map Prod.fst) ∧
    (AREA_CODES.map Prod.fst).length = 47 ∧
    AREA_CODES.lookup "tokyo" = some "130000" ∧
    get_forecast_tool (fun c => c) "tokyo" = .ok "tokyo" "130000" "130000" := by
  have h1 : AREA_CODES.lookup "paris" = none := by decide
  have h2 : AREA_CODES.lookup "tokyo" = some "130000" := by decide
  have hspec := get_forecast_tool_spec (fun c => c) "paris"
  obtain ⟨herr, hlen, -⟩ := hspec.1 h1
  refine ⟨h1, herr, hlen, h2, ?_⟩
  exact (get_forecast_tool_spec (fun c => c) "tokyo").2 "130000" h2

end JmaData
